import Mathlib

/-!
# Verification of the ha-netdata integration core

Shallow embedding of `custom_components/ha_netdata` (`__init__.py`,
`config_flow.py`, `sensor.py`): the data model of the two JSON payloads,
the sensor value computations (`NetdataSensor`, `NetdataAlarms`), the
coordinator update (`NetdataData._async_update_data`) and the setup entry
point (`async_setup_entry`), together with theorems settling the spec
claims about them.

Python numbers are modelled as exact rationals; `round(x, n)` is modelled
by `roundTo n`, rounding `x` to `n` decimal places.  Python `dict`s are
modelled as association lists (`List (String × _)`) with `dict.get`
becoming `List.lookup`; indexing a missing key (`d[k]`) is modelled as an
`Except` error carrying `"KeyError"`, and Python functions that can raise
return `Except String _`.
-/

/-- Python `round(x, n)`: round to `n` decimal places. -/
def roundTo (n : Nat) (x : ℚ) : ℚ := (round (x * 10 ^ n) : ℤ) / 10 ^ n

/-- One dimension record of the allmetrics payload: `{value: number, ...}`. -/
structure DimEntry where
  value : ℚ
deriving DecidableEq, Repr

/-- One series record of the allmetrics payload:
`{units: string, dimensions: {name: {value: number}}}`. -/
structure SeriesData where
  units : String
  dimensions : List (String × DimEntry)
deriving DecidableEq, Repr

/-- The parsed `/api/v1/allmetrics` body: series id → series record. -/
abbrev Metrics := List (String × SeriesData)

/-- One alarm record of the alarms payload: `{status, recipient, ...}`. -/
structure AlarmEntry where
  status : String
  recipient : String
deriving DecidableEq, Repr

/-- The parsed `/api/v1/alarms` body: `{alarms: {name: entry}}`. -/
structure AlarmsPayload where
  alarms : List (String × AlarmEntry)
deriving DecidableEq, Repr

/-- The coordinator's published data, `data = {"metrics": ..., "alarms": ...}`
as built by `NetdataData._async_update_data`. -/
structure Snapshot where
  metrics : Metrics
  alarms : AlarmsPayload
deriving DecidableEq, Repr

namespace NetdataAlarms

/-- The loop of `NetdataAlarms.native_value` (sensor.py lines 167-180).
Arguments: the remaining alarm entries and the running
`number_of_relevant_alarms` counter (initially the length of the whole
map).  Returns the pair (value returned by the property, final
`self._state`).  On the `CRITICAL` branch the source executes
`self._state = "critical"` followed by a bare `return`, so the property
returns Python `None` there, modelled as `none`. -/
def nativeValueGo : List (String × AlarmEntry) → Nat → Option String × Option String
  | [], n =>
      let st := if n = 0 then "ok" else "warning"
      (some st, some st)
  | (_, a) :: rest, n =>
      if a.recipient = "silent" then nativeValueGo rest (n - 1)
      else if a.status = "CLEAR" then nativeValueGo rest (n - 1)
      else if a.status = "UNDEFINED" then nativeValueGo rest (n - 1)
      else if a.status = "UNINITIALIZED" then nativeValueGo rest (n - 1)
      else if a.status = "CRITICAL" then (none, some "critical")
      else nativeValueGo rest n

/-- The property `NetdataAlarms.native_value` (sensor.py lines 157-180):
`alarms = self.coordinator.data["alarms"]["alarms"]`, `self._state = None`,
then the counting loop.  Result: (returned value, final `self._state`). -/
def nativeValue (payload : AlarmsPayload) : Option String × Option String :=
  nativeValueGo payload.alarms payload.alarms.length

/-- An alarm entry the loop excludes from the relevant count: recipient
`silent`, or status `CLEAR`, `UNDEFINED` or `UNINITIALIZED`. -/
def excluded (a : AlarmEntry) : Bool :=
  a.recipient = "silent" || a.status = "CLEAR" || a.status = "UNDEFINED"
    || a.status = "UNINITIALIZED"

/-- Number of relevant (non-excluded) entries of an alarm map. -/
def relevantCount (payload : AlarmsPayload) : Nat :=
  (payload.alarms.filter (fun p => ! excluded p.2)).length

end NetdataAlarms

namespace NetdataSensor

/-- The state a `NetdataSensor` keeps after `__init__` that its value
computation reads: the subscribed series and dimension and
`self._unit_lower = str(unit).lower()`. -/
structure State where
  unit_lower : String
  sensor : String
  element : String
deriving DecidableEq, Repr

/-- The constructor `NetdataSensor.__init__` (sensor.py lines 63-97) restricted to the data
path: it unconditionally indexes
`self.coordinator.data["metrics"][self._sensor]["units"]`, so a missing
series raises `KeyError`; otherwise it stores `str(unit).lower()`. -/
def init (data : Snapshot) (sensor element : String) : Except String State :=
  match data.metrics.lookup sensor with
  | none => .error "KeyError"
  | some s => .ok ⟨s.units.toLower, sensor, element⟩

/-- The property `NetdataSensor.native_value` (sensor.py lines 121-134):
`resource_data = data["metrics"].get(self._sensor)`; `None` → return
`None`; otherwise
`value = round(abs(resource_data["dimensions"][self._element]["value"]), 2)`
(indexing, so a missing dimension raises `KeyError`), and for unit
`kilobits/s` the result is `round(value / 1024 / 8, 3)`, else `value`. -/
def nativeValue (st : State) (data : Snapshot) : Except String (Option ℚ) :=
  match data.metrics.lookup st.sensor with
  | none => .ok none
  | some resource_data =>
      match resource_data.dimensions.lookup st.element with
      | none => .error "KeyError"
      | some d =>
          let value := roundTo 2 |d.value|
          if st.unit_lower = "kilobits/s" then .ok (some (roundTo 3 (value / 1024 / 8)))
          else .ok (some value)

/-- The property `NetdataSensor.available` (sensor.py lines 114-119): the base
availability (`last_update_success`) and the series being present. -/
def available (lastUpdateSuccess : Bool) (st : State) (data : Snapshot) : Bool :=
  lastUpdateSuccess && (data.metrics.lookup st.sensor).isSome

end NetdataSensor

/-- A Python value, as far as the `timedelta(seconds=...)` argument is
concerned: a number, a string, or a list. -/
inductive PyVal where
  | num (q : ℚ)
  | str (s : String)
  | list (xs : List PyVal)

/-- Python `datetime.timedelta(seconds=x)`: accepts a number and raises
`TypeError` on any other argument (such as a list). -/
def timedeltaSeconds : PyVal → Except String ℚ
  | .num q => .ok q
  | _ => .error "TypeError"

namespace NetdataData

/-- The state `NetdataData.__init__` (sensor.py lines 197-204) leaves
behind: the update interval handed to the coordinator base and the two
request URLs. -/
structure State where
  update_interval_seconds : ℚ
  url_allmetrics : String
  url_alarms : String
deriving DecidableEq, Repr

/-- The constructor `NetdataData.__init__(hass, host, port, interval)` (sensor.py lines
197-204): builds `timedelta(seconds=interval)` for the coordinator base
(raising `TypeError` when `interval` is not a number) and the two URLs. -/
def init (host : String) (port : Nat) (interval : PyVal) : Except String State := do
  let secs ← timedeltaSeconds interval
  return ⟨secs,
    "http://" ++ host ++ ":" ++ toString port
      ++ "/api/v1/allmetrics?format=json&help=no&types=no&timestamps=yes&names=yes&data=average",
    "http://" ++ host ++ ":" ++ toString port ++ "/api/v1/alarms?all&format=json"⟩

/-- The method `NetdataData._async_update_data` (sensor.py lines 206-212): fetch the
allmetrics body, then the alarms body, and return
`{"metrics": ..., "alarms": ...}`; an exception from either fetch
propagates and the coroutine produces no data. The two fetch outcomes of
the current cycle are the arguments. -/
def asyncUpdateData (fetchMetrics : Except String Metrics)
    (fetchAlarms : Except String AlarmsPayload) : Except String Snapshot := do
  let metrics ← fetchMetrics
  let alarms ← fetchAlarms
  return ⟨metrics, alarms⟩

end NetdataData

/-- The persisted config-entry data the flow creates
(`NetdataFlowHandler`, config_flow.py): `name`, `host`, `port` from step
`user`, `domains` from step `domains`, `resources` and `scan_interval`
from step `sensors`.  No step ever stores a `filters` key, but
`async_setup_entry` reads one with `config.get(CONF_FILTERS, [])`, so the
model carries it as an `Option` defaulting to absent. -/
structure ConfigData where
  name : String
  host : String
  port : Nat
  domains : List String
  resources : List String
  scan_interval : Nat
  filters : Option (List String) := none
deriving DecidableEq, Repr

/-- The assignment `filters = [res.split("/") for res in config.get(CONF_FILTERS, [])]`
(__init__.py line 13). -/
def parseFilters (config : ConfigData) : List (List String) :=
  (config.filters.getD []).map (fun res => res.splitOn "/")

/-- The Python value actually passed in the `interval` position of
`NetdataData(hass, host, port, filters)` (__init__.py line 14): the
parsed filters, a list of lists of strings. -/
def setupIntervalArg (config : ConfigData) : PyVal :=
  .list ((parseFilters config).map (fun l => .list (l.map .str)))

/-- The entry point `async_setup_entry` (__init__.py lines 9-15), up to the construction
of the coordinator: reads host and port, parses the (always-absent)
filters, and calls `NetdataData(hass, host, port, filters)` — the filters
list lands in the `interval` parameter. -/
def asyncSetupEntry (config : ConfigData) : Except String NetdataData.State :=
  NetdataData.init config.host config.port (setupIntervalArg config)

/-- Modelled from the spec: the host platform's `DataUpdateCoordinator`
publish loop is not part of this repository's sources.  §4.3: states
`IDLE` (no data yet), `HEALTHY` (last cycle succeeded), `DEGRADED` (last
cycle failed but a previous Snapshot exists). -/
inductive CoordPhase where
  | idle
  | healthy
  | degraded
deriving DecidableEq, Repr

/-- Modelled from the spec: coordinator state = phase plus the currently
published snapshot (`coordinator.data`), if any. -/
structure CoordState where
  phase : CoordPhase
  data : Option Snapshot
deriving DecidableEq, Repr

/-- Modelled from the spec: one poll cycle of the host platform's update
coordinator, §4.3 steps 1-4 and §7 — on success the new Snapshot replaces
the published one atomically and the state is `HEALTHY`; on failure the
previous Snapshot (when one exists) is kept and the state becomes
`DEGRADED`, while a failure with no prior Snapshot stays `IDLE` (surfaced
as a setup failure).  The cycle's fetch outcome is produced by
`NetdataData.asyncUpdateData`. -/
def coordStep (s : CoordState) (fetch : Except String Snapshot) : CoordState :=
  match fetch with
  | .ok snap => ⟨.healthy, some snap⟩
  | .error _ =>
      match s.data with
      | some d => ⟨.degraded, some d⟩
      | none => ⟨.idle, none⟩

/-! ## Helper lemmas -/

namespace NetdataAlarms

/-- Number of excluded entries of an alarm list. -/
def excludedCount (l : List (String × AlarmEntry)) : Nat :=
  (l.filter (fun p => excluded p.2)).length

lemma length_filter_add_length_filter_not {α : Type} (l : List α) (p : α → Bool) :
    (l.filter p).length + (l.filter (fun a => ! p a)).length = l.length := by
  induction l with
  | nil => rfl
  | cons a t ih =>
      by_cases h : p a <;> simp [List.filter_cons, h, ← ih] <;> omega

/-- When no entry is both loud (recipient ≠ `silent`) and `CRITICAL`, the
loop of `native_value` falls through and reports by comparing the counter,
decremented once per excluded entry, with zero. -/
lemma nativeValueGo_no_loud_critical (l : List (String × AlarmEntry)) :
    ∀ n : Nat, (∀ p ∈ l, p.2.recipient = "silent" ∨ p.2.status ≠ "CRITICAL") →
      nativeValueGo l n =
        (if n - excludedCount l = 0 then (some "ok", some "ok")
         else (some "warning", some "warning")) := by
  induction l with
  | nil =>
      intro n _
      simp only [nativeValueGo, excludedCount, List.filter_nil, List.length_nil, Nat.sub_zero]
      split <;> rfl
  | cons p t ih =>
      intro n h
      have hp := h p (List.mem_cons_self p t)
      have ht : ∀ q ∈ t, q.2.recipient = "silent" ∨ q.2.status ≠ "CRITICAL" :=
        fun q hq => h q (List.mem_cons_of_mem p hq)
      by_cases hsil : p.2.recipient = "silent"
      · simp [nativeValueGo, hsil, ih (n - 1) ht, excludedCount, List.filter_cons,
          excluded, Nat.sub_sub, Nat.add_comm]
      · have hcrit : p.2.status ≠ "CRITICAL" := hp.resolve_left hsil
        by_cases h1 : p.2.status = "CLEAR"
        · simp [nativeValueGo, hsil, h1, ih (n - 1) ht, excludedCount, List.filter_cons,
            excluded, Nat.sub_sub, Nat.add_comm]
        · by_cases h2 : p.2.status = "UNDEFINED"
          · simp [nativeValueGo, hsil, h1, h2, ih (n - 1) ht, excludedCount,
              List.filter_cons, excluded, Nat.sub_sub, Nat.add_comm]
          · by_cases h3 : p.2.status = "UNINITIALIZED"
            · simp [nativeValueGo, hsil, h1, h2, h3, ih (n - 1) ht, excludedCount,
                List.filter_cons, excluded, Nat.sub_sub, Nat.add_comm]
            · simp [nativeValueGo, hsil, h1, h2, h3, hcrit, ih n ht, excludedCount,
                List.filter_cons, excluded]

/-- Starting the counter at the full length, the fall-through comparison is
exactly `relevantCount = 0`. -/
lemma length_sub_excludedCount (payload : AlarmsPayload) :
    payload.alarms.length - excludedCount payload.alarms = relevantCount payload := by
  have h := length_filter_add_length_filter_not payload.alarms (fun p => excluded p.2)
  unfold excludedCount relevantCount
  omega

end NetdataAlarms

/-- A one-series metrics map with a single dimension, used as concrete
poll data in several instances below. -/
def mSnap (v : ℚ) : Metrics := [("system.cpu", ⟨"percentage", [("user", ⟨v⟩)]⟩)]

/-! ## Claims about the alarm aggregation -/

/-- C1: evaluating `NetdataAlarms.native_value` at the spec's own example
`{a: CRITICAL/loud, b: CLEAR/loud}` (recipient `sysadmin`, i.e. not
`silent`): the loop does reach the `CRITICAL` branch and sets the internal
`_state` to `"critical"`, but the branch ends in a bare `return`, so the
property's returned value is `None` — not `"critical"` as the claim and
spec state. -/
theorem C1_critical_entry_returns_none :
    NetdataAlarms.nativeValue
        ⟨[("a", ⟨"CRITICAL", "sysadmin"⟩), ("b", ⟨"CLEAR", "sysadmin"⟩)]⟩ =
      (none, some "critical") ∧
    (none : Option String) ≠ some "critical" := by
  constructor
  · rfl
  · intro h; cases h

/-- C7: whenever no entry is both loud (recipient ≠ `silent`) and
`CRITICAL`, `NetdataAlarms.native_value` returns (and stores in `_state`)
`"ok"` when no relevant entry remains and `"warning"` otherwise, where an
entry is relevant unless its recipient is `silent` or its status is
`CLEAR`, `UNDEFINED` or `UNINITIALIZED`; in particular
`{a: WARNING/loud}` yields `warning`, `{a: WARNING/silent}` yields `ok`
and the empty map yields `ok`. -/
theorem C7_exclusion_and_fallthrough (payload : AlarmsPayload)
    (h : ∀ p ∈ payload.alarms, p.2.recipient = "silent" ∨ p.2.status ≠ "CRITICAL") :
    NetdataAlarms.nativeValue payload =
      (if NetdataAlarms.relevantCount payload = 0 then (some "ok", some "ok")
       else (some "warning", some "warning")) ∧
    NetdataAlarms.nativeValue ⟨[("a", ⟨"WARNING", "sysadmin"⟩)]⟩ =
      (some "warning", some "warning") ∧
    NetdataAlarms.nativeValue ⟨[("a", ⟨"WARNING", "silent"⟩)]⟩ = (some "ok", some "ok") ∧
    NetdataAlarms.nativeValue ⟨[]⟩ = (some "ok", some "ok") := by
  refine ⟨?_, by decide, by decide, by decide⟩
  unfold NetdataAlarms.nativeValue
  rw [NetdataAlarms.nativeValueGo_no_loud_critical payload.alarms payload.alarms.length h,
    NetdataAlarms.length_sub_excludedCount]

/-- Closed instance of `C7_exclusion_and_fallthrough` at the concrete map
`{a: WARNING/loud, b: CLEAR/loud}`. -/
theorem C7_exclusion_and_fallthrough_witness :
    NetdataAlarms.nativeValue
        ⟨[("a", ⟨"WARNING", "sysadmin"⟩), ("b", ⟨"CLEAR", "sysadmin"⟩)]⟩ =
      (if NetdataAlarms.relevantCount
            ⟨[("a", ⟨"WARNING", "sysadmin"⟩), ("b", ⟨"CLEAR", "sysadmin"⟩)]⟩ = 0
       then (some "ok", some "ok") else (some "warning", some "warning")) :=
  (C7_exclusion_and_fallthrough
    ⟨[("a", ⟨"WARNING", "sysadmin"⟩), ("b", ⟨"CLEAR", "sysadmin"⟩)]⟩ (by decide)).1

/-! ## Claims about the update cycle and setup -/

/-- C4: `NetdataData._async_update_data` returns a snapshot exactly when
both fetches of the cycle succeed, and that snapshot carries precisely the
metrics and alarms fetched in that cycle; if the metrics fetch fails the
alarms fetch result is irrelevant and the cycle fails, and if the alarms
fetch fails the cycle fails as well — no partial snapshot exists. -/
theorem C4_snapshot_same_cycle_or_fail :
    (∀ (m : Metrics) (a : AlarmsPayload),
      NetdataData.asyncUpdateData (.ok m) (.ok a) = .ok ⟨m, a⟩) ∧
    (∀ (e : String) (fa : Except String AlarmsPayload),
      NetdataData.asyncUpdateData (.error e) fa = .error e) ∧
    (∀ (m : Metrics) (e : String),
      NetdataData.asyncUpdateData (.ok m) (.error e) = .error e) :=
  ⟨fun _ _ => rfl, fun _ _ => rfl, fun _ _ => rfl⟩

/-- C5: with a snapshot `p` published, a cycle whose
`_async_update_data` fails keeps `p` published and moves the coordinator
to `DEGRADED`; any subsequent cycle whose two fetches succeed moves it
back to `HEALTHY` and publishes the new cycle's snapshot. -/
theorem C5_failure_keeps_snapshot_then_recovers (s : CoordState) (p : Snapshot)
    (e : String) (fm : Except String Metrics) (fa : Except String AlarmsPayload)
    (hdata : s.data = some p)
    (hfail : NetdataData.asyncUpdateData fm fa = .error e) :
    (coordStep s (NetdataData.asyncUpdateData fm fa)).data = some p ∧
    (coordStep s (NetdataData.asyncUpdateData fm fa)).phase = .degraded ∧
    ∀ (m : Metrics) (a : AlarmsPayload),
      (coordStep (coordStep s (NetdataData.asyncUpdateData fm fa))
          (NetdataData.asyncUpdateData (.ok m) (.ok a))).phase = .healthy ∧
      (coordStep (coordStep s (NetdataData.asyncUpdateData fm fa))
          (NetdataData.asyncUpdateData (.ok m) (.ok a))).data = some ⟨m, a⟩ := by
  have hstep : coordStep s (NetdataData.asyncUpdateData fm fa) = ⟨.degraded, some p⟩ := by
    rw [hfail]
    simp [coordStep, hdata]
  exact ⟨by rw [hstep], by rw [hstep],
    fun m a => ⟨by rw [hstep]; rfl, by rw [hstep]; rfl⟩⟩

/-- Closed instance of `C5_failure_keeps_snapshot_then_recovers`: a
healthy coordinator holding the empty snapshot, a cycle whose metrics
fetch fails with a transport error, then a successful cycle. -/
theorem C5_failure_keeps_snapshot_then_recovers_witness :
    (coordStep ⟨.healthy, some ⟨[], ⟨[]⟩⟩⟩
        (NetdataData.asyncUpdateData (.error "TransportError") (.ok ⟨[]⟩))).data =
      some ⟨[], ⟨[]⟩⟩ ∧
    (coordStep ⟨.healthy, some ⟨[], ⟨[]⟩⟩⟩
        (NetdataData.asyncUpdateData (.error "TransportError") (.ok ⟨[]⟩))).phase =
      .degraded ∧
    (coordStep (coordStep ⟨.healthy, some ⟨[], ⟨[]⟩⟩⟩
        (NetdataData.asyncUpdateData (.error "TransportError") (.ok ⟨[]⟩)))
        (NetdataData.asyncUpdateData (.ok (mSnap 1)) (.ok ⟨[]⟩))).phase = .healthy ∧
    (coordStep (coordStep ⟨.healthy, some ⟨[], ⟨[]⟩⟩⟩
        (NetdataData.asyncUpdateData (.error "TransportError") (.ok ⟨[]⟩)))
        (NetdataData.asyncUpdateData (.ok (mSnap 1)) (.ok ⟨[]⟩))).data =
      some ⟨mSnap 1, ⟨[]⟩⟩ :=
  have h := C5_failure_keeps_snapshot_then_recovers ⟨.healthy, some ⟨[], ⟨[]⟩⟩⟩ ⟨[], ⟨[]⟩⟩
    "TransportError" (.error "TransportError") (.ok ⟨[]⟩) rfl rfl
  ⟨h.1, h.2.1, (h.2.2 (mSnap 1) ⟨[]⟩).1, (h.2.2 (mSnap 1) ⟨[]⟩).2⟩

/-- C9: `async_setup_entry` hands `NetdataData` the parsed filter list in
the `interval` parameter position; the flow never persists a `filters`
key, so that list is empty by default; `NetdataData.__init__` raises
`TypeError` on any non-numeric interval argument, so setup always fails
at `timedelta(seconds=filters)`. -/
theorem C9_filters_passed_as_interval (config : ConfigData) (v : PyVal)
    (hv : ∀ q : ℚ, v ≠ .num q) :
    asyncSetupEntry config =
      NetdataData.init config.host config.port
        (.list ((parseFilters config).map (fun l => .list (l.map .str)))) ∧
    (config.filters = none → setupIntervalArg config = .list []) ∧
    NetdataData.init config.host config.port v = .error "TypeError" ∧
    asyncSetupEntry config = .error "TypeError" := by
  refine ⟨rfl, ?_, ?_, rfl⟩
  · intro h
    simp [setupIntervalArg, parseFilters, h]
  · cases v with
    | num q => exact absurd rfl (hv q)
    | str s => rfl
    | list xs => rfl

/-- Closed instance of `C9_filters_passed_as_interval` at a flow-shaped
config entry (no `filters` key) and the non-numeric value `"1"`. -/
theorem C9_filters_passed_as_interval_witness :
    asyncSetupEntry ⟨"Netdata", "localhost", 19999, ["system"], ["system.cpu/user"], 1, none⟩ =
      NetdataData.init "localhost" 19999
        (.list ((parseFilters
            ⟨"Netdata", "localhost", 19999, ["system"], ["system.cpu/user"], 1, none⟩).map
          (fun l => .list (l.map .str)))) ∧
    setupIntervalArg ⟨"Netdata", "localhost", 19999, ["system"], ["system.cpu/user"], 1, none⟩ =
      .list [] ∧
    NetdataData.init "localhost" 19999 (.str "1") = .error "TypeError" ∧
    asyncSetupEntry ⟨"Netdata", "localhost", 19999, ["system"], ["system.cpu/user"], 1, none⟩ =
      .error "TypeError" :=
  have h := C9_filters_passed_as_interval
    ⟨"Netdata", "localhost", 19999, ["system"], ["system.cpu/user"], 1, none⟩
    (.str "1") (fun _ h => PyVal.noConfusion h)
  ⟨h.1, h.2.1 rfl, h.2.2.1, h.2.2.2⟩

/-- C3: at a config entry carrying the operator's scan interval 5 (and,
as always for flow-produced entries, no `filters` key), setup does not
construct a coordinator polling every 5 seconds: the value in the
interval position is the empty filters list, `timedelta(seconds=[])`
raises `TypeError`, and no `NetdataData` state is produced at all. -/
theorem C3_scan_interval_never_reaches_coordinator :
    asyncSetupEntry ⟨"Netdata", "localhost", 19999, ["system"], ["system.cpu/user"], 5, none⟩ =
      .error "TypeError" ∧
    setupIntervalArg ⟨"Netdata", "localhost", 19999, ["system"], ["system.cpu/user"], 5, none⟩ =
      .list [] ∧
    (∀ st : NetdataData.State,
      asyncSetupEntry ⟨"Netdata", "localhost", 19999, ["system"], ["system.cpu/user"], 5, none⟩ ≠
        .ok st) := by
  refine ⟨rfl, rfl, fun st h => Except.noConfusion h⟩

/-- C10: `NetdataSensor.__init__` indexes the current snapshot's metrics
with its series id before anything else: a snapshot lacking the series
makes construction raise `KeyError`, and only a snapshot containing it
yields an initialized sensor (with the lower-cased unit stored). -/
theorem C10_init_requires_series (data : Snapshot) (sensor element : String) :
    (data.metrics.lookup sensor = none →
      NetdataSensor.init data sensor element = .error "KeyError") ∧
    (∀ sd : SeriesData, data.metrics.lookup sensor = some sd →
      NetdataSensor.init data sensor element = .ok ⟨sd.units.toLower, sensor, element⟩) := by
  constructor
  · intro h
    unfold NetdataSensor.init
    rw [h]
  · intro sd h
    unfold NetdataSensor.init
    rw [h]

/-- Closed instance of `C10_init_requires_series`: a first snapshot
holding only `system.cpu` makes constructing a `net.eth0` sensor raise
`KeyError`. -/
theorem C10_init_requires_series_witness :
    NetdataSensor.init ⟨[("system.cpu", ⟨"percentage", [("user", ⟨1⟩)]⟩)], ⟨[]⟩⟩
        "net.eth0" "received" = .error "KeyError" :=
  (C10_init_requires_series ⟨[("system.cpu", ⟨"percentage", [("user", ⟨1⟩)]⟩)], ⟨[]⟩⟩
    "net.eth0" "received").1 rfl

/-! ## Claims about the sensor value computation -/

/-- C2 counterexample: feeding three successful cycles with raw values
`-3`, `4`, `-5` for `system.cpu/user` through the coordinator leaves only
the last cycle's snapshot published, and the sensor's read on it is
`round(abs(-5), 2) = 5.00`, the latest absolute raw value — not the
claimed three-value mean `4.00`.  No smoothing window exists in the code:
`NetdataSensor.native_value` consults nothing but the latest snapshot. -/
theorem C2_read_is_latest_raw_not_mean :
    (coordStep (coordStep (coordStep ⟨.idle, none⟩
          (NetdataData.asyncUpdateData (.ok (mSnap (-3))) (.ok ⟨[]⟩)))
          (NetdataData.asyncUpdateData (.ok (mSnap 4)) (.ok ⟨[]⟩)))
          (NetdataData.asyncUpdateData (.ok (mSnap (-5))) (.ok ⟨[]⟩))).data =
      some ⟨mSnap (-5), ⟨[]⟩⟩ ∧
    NetdataSensor.nativeValue ⟨"percentage", "system.cpu", "user"⟩ ⟨mSnap (-5), ⟨[]⟩⟩ =
      .ok (some 5) ∧
    (5 : ℚ) ≠ 4 := by
  refine ⟨rfl, ?_, by norm_num⟩
  have h : NetdataSensor.nativeValue ⟨"percentage", "system.cpu", "user"⟩
      ⟨mSnap (-5), ⟨[]⟩⟩ = .ok (some (roundTo 2 |(-5 : ℚ)|)) := rfl
  rw [h]
  norm_num [roundTo, round_eq]

/-- C2 as the code has it: the published data after a successful cycle is
exactly that cycle's snapshot (no history is retained anywhere), and for
a non-`kilobits/s` sensor whose key is present the read is
`round(abs(v), 2)` of the latest raw value `v` alone. -/
theorem C2_read_depends_only_on_latest (prev : CoordState) (snap : Snapshot)
    (st : NetdataSensor.State) (sd : SeriesData) (d : DimEntry)
    (h1 : snap.metrics.lookup st.sensor = some sd)
    (h2 : sd.dimensions.lookup st.element = some d)
    (h3 : st.unit_lower ≠ "kilobits/s") :
    (coordStep prev (.ok snap)).data = some snap ∧
    NetdataSensor.nativeValue st snap = .ok (some (roundTo 2 |d.value|)) := by
  refine ⟨rfl, ?_⟩
  simp [NetdataSensor.nativeValue, h1, h2, h3]

/-- Closed instance of `C2_read_depends_only_on_latest` at the third
snapshot of the `-3, 4, -5` trace. -/
theorem C2_read_depends_only_on_latest_witness :
    (coordStep ⟨.idle, none⟩ (.ok ⟨mSnap (-5), ⟨[]⟩⟩)).data = some ⟨mSnap (-5), ⟨[]⟩⟩ ∧
    NetdataSensor.nativeValue ⟨"percentage", "system.cpu", "user"⟩ ⟨mSnap (-5), ⟨[]⟩⟩ =
      .ok (some (roundTo 2 |(⟨-5⟩ : DimEntry).value|)) :=
  C2_read_depends_only_on_latest ⟨.idle, none⟩ ⟨mSnap (-5), ⟨[]⟩⟩
    ⟨"percentage", "system.cpu", "user"⟩ ⟨"percentage", [("user", ⟨-5⟩)]⟩ ⟨-5⟩
    rfl rfl (by decide)

/-- C6 counterexample: with the series present but the subscribed
dimension missing from it, `NetdataSensor.native_value` indexes
`resource_data["dimensions"][element]` and raises `KeyError` instead of
reporting unavailable. -/
theorem C6_missing_dimension_raises :
    NetdataSensor.nativeValue ⟨"percentage", "system.cpu", "user"⟩
        ⟨[("system.cpu", ⟨"percentage", []⟩)], ⟨[]⟩⟩ = .error "KeyError" ∧
    (Except.error "KeyError" : Except String (Option ℚ)) ≠ .ok none :=
  ⟨rfl, fun h => Except.noConfusion h⟩

/-- C6 as the code has it: when the whole series is absent from the
snapshot's metrics, the read returns `None` (reported as unavailable)
without raising and `available` is false; and any view's read depends
only on its own series entry, so it is unaffected by what other series
are present or absent. -/
theorem C6_missing_series_unavailable (st : NetdataSensor.State) (data : Snapshot)
    (h : data.metrics.lookup st.sensor = none) :
    NetdataSensor.nativeValue st data = .ok none ∧
    NetdataSensor.available true st data = false ∧
    (∀ (st' : NetdataSensor.State) (data' : Snapshot),
      data'.metrics.lookup st'.sensor = data.metrics.lookup st'.sensor →
      NetdataSensor.nativeValue st' data' = NetdataSensor.nativeValue st' data) := by
  refine ⟨?_, ?_, ?_⟩
  · unfold NetdataSensor.nativeValue
    rw [h]
  · unfold NetdataSensor.available
    rw [h]
    rfl
  · intro st' data' hagree
    unfold NetdataSensor.nativeValue
    rw [hagree]

/-- Closed instance of `C6_missing_series_unavailable`: a view subscribed
to the absent series `net.eth0` over a snapshot holding only
`system.cpu`. -/
theorem C6_missing_series_unavailable_witness :
    NetdataSensor.nativeValue ⟨"percentage", "net.eth0", "received"⟩ ⟨mSnap 1, ⟨[]⟩⟩ =
      .ok none ∧
    NetdataSensor.available true ⟨"percentage", "net.eth0", "received"⟩ ⟨mSnap 1, ⟨[]⟩⟩ =
      false ∧
    NetdataSensor.nativeValue ⟨"percentage", "system.cpu", "user"⟩ ⟨mSnap 1, ⟨[("a", ⟨"CLEAR", "silent"⟩)]⟩⟩ =
      NetdataSensor.nativeValue ⟨"percentage", "system.cpu", "user"⟩ ⟨mSnap 1, ⟨[]⟩⟩ :=
  have h := C6_missing_series_unavailable ⟨"percentage", "net.eth0", "received"⟩
    ⟨mSnap 1, ⟨[]⟩⟩ rfl
  ⟨h.1, h.2.1,
    h.2.2 ⟨"percentage", "system.cpu", "user"⟩ ⟨mSnap 1, ⟨[("a", ⟨"CLEAR", "silent"⟩)]⟩⟩ rfl⟩

/-- C8 counterexample: for unit `kilobits/s` and raw value `4.0959` the
code first rounds the absolute value to 2 decimals (`4.10`), divides and
rounds to 3 decimals, giving `0.001`; the claim's formula
`round(abs(raw)/1024/8, 3)` gives `0` at the same input. -/
theorem C8_rounding_order_matters :
    NetdataSensor.nativeValue ⟨"kilobits/s", "net.eth0", "received"⟩
        ⟨[("net.eth0", ⟨"kilobits/s", [("received", ⟨40959/10000⟩)]⟩)], ⟨[]⟩⟩ =
      .ok (some (1/1000)) ∧
    roundTo 3 (|(40959 : ℚ)/10000| / 1024 / 8) = 0 ∧
    ((1 : ℚ)/1000) ≠ 0 := by
  have habs : |(40959 : ℚ)/10000| = 40959/10000 := abs_of_nonneg (by norm_num)
  refine ⟨?_, ?_, by norm_num⟩
  · have h : NetdataSensor.nativeValue ⟨"kilobits/s", "net.eth0", "received"⟩
        ⟨[("net.eth0", ⟨"kilobits/s", [("received", ⟨40959/10000⟩)]⟩)], ⟨[]⟩⟩ =
        .ok (some (roundTo 3 (roundTo 2 |(40959 : ℚ)/10000| / 1024 / 8))) := rfl
    rw [h, habs]
    norm_num [roundTo, round_eq]
  · rw [habs]
    norm_num [roundTo, round_eq]

/-- C8 as the code has it: for a present key, a `kilobits/s` sensor
reports `round(round(abs(raw), 2) / 1024 / 8, 3)` — the absolute raw
value is rounded to 2 decimals before the documented `/1024/8`
conversion — any other unit reports `round(abs(raw), 2)`, and a raw
value of `8192` under `kilobits/s` yields exactly `1.0`. -/
theorem C8_unit_conversion (st : NetdataSensor.State) (data : Snapshot)
    (sd : SeriesData) (d : DimEntry)
    (h1 : data.metrics.lookup st.sensor = some sd)
    (h2 : sd.dimensions.lookup st.element = some d) :
    (st.unit_lower = "kilobits/s" →
      NetdataSensor.nativeValue st data =
        .ok (some (roundTo 3 (roundTo 2 |d.value| / 1024 / 8)))) ∧
    (st.unit_lower ≠ "kilobits/s" →
      NetdataSensor.nativeValue st data = .ok (some (roundTo 2 |d.value|))) ∧
    roundTo 3 (roundTo 2 |(8192 : ℚ)| / 1024 / 8) = 1 := by
  have habs : |(8192 : ℚ)| = 8192 := abs_of_nonneg (by norm_num)
  refine ⟨?_, ?_, by rw [habs]; norm_num [roundTo, round_eq]⟩
  · intro hk
    simp [NetdataSensor.nativeValue, h1, h2, hk]
  · intro hk
    simp [NetdataSensor.nativeValue, h1, h2, hk]

/-- Closed instance of `C8_unit_conversion` at a `kilobits/s` series with
raw value `8192`. -/
theorem C8_unit_conversion_witness :
    NetdataSensor.nativeValue ⟨"kilobits/s", "net.eth0", "received"⟩
        ⟨[("net.eth0", ⟨"kilobits/s", [("received", ⟨8192⟩)]⟩)], ⟨[]⟩⟩ =
      .ok (some (roundTo 3 (roundTo 2 |(⟨8192⟩ : DimEntry).value| / 1024 / 8))) ∧
    roundTo 3 (roundTo 2 |(8192 : ℚ)| / 1024 / 8) = 1 :=
  have h := C8_unit_conversion ⟨"kilobits/s", "net.eth0", "received"⟩
    ⟨[("net.eth0", ⟨"kilobits/s", [("received", ⟨8192⟩)]⟩)], ⟨[]⟩⟩
    ⟨"kilobits/s", [("received", ⟨8192⟩)]⟩ ⟨8192⟩ rfl rfl
  ⟨h.1 rfl, h.2.2⟩
